import Mathlib

/-!
Verification development for the quotation workflow of
`src/supplier_quotation_system.py` (class `SupplierQuotationSystem`).

The SQLite tables become lists of records, `REAL` columns become `Rat`,
and `AUTOINCREMENT` ids become explicit counters carried in the store.
Timestamp columns (`data_solicitacao`, `prazo_resposta`, `data_proposta`,
`validade_proposta`, `data_comparacao`, `created_at`), free-text columns
that nothing reads back (`prazo_entrega`, `condicoes_pagamento`,
`observacoes`, `especificacoes` of a proposal item) and the surrogate ids
of `itens_proposta` / `comparacao_propostas` rows (referenced nowhere)
are omitted.  Logging and database-connection failure are not modelled:
every operation models the exception-free database path, except where a
Python-level exception arises from the data itself — the
`ZeroDivisionError` inside `comparar_propostas` and the consequent
`KeyError` inside `selecionar_vencedora`, which are modelled exactly.
-/

/-- Row of table `solicitacoes_cotacao`.  `status` defaults to `enviada`
and is set to `concluida` by `selecionar_vencedora`. -/
structure Solicitacao where
  id : Nat
  numero_edital : String
  descricao : String
  status : String
deriving Repr, DecidableEq

/-- Row of table `itens_solicitacao`. -/
structure ItemSolicitacao where
  id : Nat
  solicitacao_id : Nat
  codigo_item : String
  descricao_item : String
  quantidade : Int
  unidade : String
  especificacoes : String
deriving Repr, DecidableEq

/-- Row of table `propostas_cotacao`.  `status` defaults to `recebida`;
`selecionar_vencedora` rewrites it to `vencedora` / `nao_selecionada`. -/
structure Proposta where
  id : Nat
  solicitacao_id : Nat
  fornecedor_id : Nat
  valor_total : Rat
  status : String
deriving Repr, DecidableEq

/-- Row of table `itens_proposta`.  `preco_total` is stored exactly as the
caller supplied it (the preco_total value of the item dict). -/
structure ItemProposta where
  proposta_id : Nat
  item_solicitacao_id : Nat
  preco_unitario : Rat
  preco_total : Rat
  marca : String
  modelo : String
deriving Repr, DecidableEq

/-- Row of table `comparacao_propostas` (the award record written by
`selecionar_vencedora`). -/
structure ComparacaoRegistro where
  solicitacao_id : Nat
  proposta_vencedora_id : Nat
  criterio_selecao : String
  justificativa : String
  economia_gerada : Rat
deriving Repr, DecidableEq

/-- The whole database state. -/
structure Store where
  solicitacoes : List Solicitacao
  itensSolicitacao : List ItemSolicitacao
  propostas : List Proposta
  itensProposta : List ItemProposta
  comparacoes : List ComparacaoRegistro
  nextSolicitacaoId : Nat
  nextItemSolicitacaoId : Nat
  nextPropostaId : Nat
deriving Repr, DecidableEq

/-- Empty database (fresh `init_tables`). -/
def Store.empty : Store := ⟨[], [], [], [], [], 1, 1, 1⟩

/-- One entry of the `itens` argument of `criar_solicitacao`. -/
structure ItemInput where
  codigo : String
  descricao : String
  quantidade : Int
  unidade : String
  especificacoes : String
deriving Repr, DecidableEq

/-- One entry of the `itens_proposta` argument of `registrar_proposta`.
The caller supplies both `preco_unitario` and `preco_total`. -/
structure ItemPropostaInput where
  item_solicitacao_id : Nat
  preco_unitario : Rat
  preco_total : Rat
  marca : String
  modelo : String
deriving Repr, DecidableEq

/-- The `INSERT INTO itens_solicitacao` loop of `criar_solicitacao`:
each input becomes a row, ids taken from the autoincrement counter. -/
def itensRows (solicitacao_id : Nat) : Nat → List ItemInput → List ItemSolicitacao
  | _, [] => []
  | nextId, it :: rest =>
      ⟨nextId, solicitacao_id, it.codigo, it.descricao, it.quantidade,
        it.unidade, it.especificacoes⟩ :: itensRows solicitacao_id (nextId + 1) rest

/-- `criar_solicitacao` (source lines 136-198): inserts the request row with
default status `enviada` and one `itens_solicitacao` row per input item.
The source performs no validation of `itens` whatsoever. -/
def criar_solicitacao (st : Store) (numero_edital descricao : String)
    (itens : List ItemInput) : Store × Option Nat :=
  let sid := st.nextSolicitacaoId
  ({ st with
      solicitacoes := st.solicitacoes ++ [⟨sid, numero_edital, descricao, "enviada"⟩],
      itensSolicitacao := st.itensSolicitacao ++ itensRows sid st.nextItemSolicitacaoId itens,
      nextSolicitacaoId := sid + 1,
      nextItemSolicitacaoId := st.nextItemSolicitacaoId + itens.length },
    some sid)

/-- The `INSERT INTO itens_proposta` loop of `registrar_proposta`: the row
copies the caller's `preco_unitario` and `preco_total` verbatim. -/
def itensPropostaRows (proposta_id : Nat) (itens : List ItemPropostaInput) :
    List ItemProposta :=
  itens.map fun it =>
    ⟨proposta_id, it.item_solicitacao_id, it.preco_unitario, it.preco_total,
      it.marca, it.modelo⟩

/-- `registrar_proposta` (source lines 200-273): `valor_total` is
the Python sum of the preco_total values of itens_proposta; the row is
inserted with default status `recebida`, then one `itens_proposta` row per
input.  The source checks neither the request's existence nor its status,
performs no price validation, and accepts an empty item list (the empty sum
is `0`). -/
def registrar_proposta (st : Store) (solicitacao_id fornecedor_id : Nat)
    (itens_proposta : List ItemPropostaInput) : Store × Option Nat :=
  let valor_total := (itens_proposta.map (·.preco_total)).sum
  let pid := st.nextPropostaId
  ({ st with
      propostas := st.propostas ++
        [⟨pid, solicitacao_id, fornecedor_id, valor_total, "recebida"⟩],
      itensProposta := st.itensProposta ++ itensPropostaRows pid itens_proposta,
      nextPropostaId := pid + 1 },
    some pid)

/-- The `SELECT ... WHERE p.solicitacao_id = ? ORDER BY p.valor_total ASC`
of `comparar_propostas`, modelled as a sort by `valor_total`. -/
def propostasOrdenadas (st : Store) (solicitacao_id : Nat) : List Proposta :=
  List.insertionSort (fun a b => a.valor_total ≤ b.valor_total)
    (st.propostas.filter fun p => p.solicitacao_id == solicitacao_id)

/-- The multiset of `valor_total` values of the proposals of one request
(order of the table, before sorting). -/
def totalsDe (st : Store) (solicitacao_id : Nat) : List Rat :=
  (st.propostas.filter fun p => p.solicitacao_id == solicitacao_id).map (·.valor_total)

/-- The `analise` dictionary built by `comparar_propostas`.  The source
aliases `fornecedor_nome` to `fornecedor_id` in its SELECT.  `media_precos`
is the source's `preco_medio` key. -/
structure Analise where
  total_propostas : Nat
  menor_fornecedor : Nat
  menor_valor : Rat
  menor_proposta_id : Nat
  maior_fornecedor : Nat
  maior_valor : Rat
  media_precos : Rat
  economia_potencial : Rat
  variacao_percentual : Rat
deriving Repr, DecidableEq

/-- Builds the `analise` dictionary from the sorted proposal list, its first
element (`propostas[0]`, `menor_preco`) and its last (`propostas[-1]`,
`maior_preco`). -/
def mkAnalise (props : List Proposta) (menor maior : Proposta) : Analise :=
  ⟨props.length, menor.fornecedor_id, menor.valor_total, menor.id,
    maior.fornecedor_id, maior.valor_total,
    (props.map (·.valor_total)).sum / (props.length : Rat),
    maior.valor_total - menor.valor_total,
    (maior.valor_total - menor.valor_total) / maior.valor_total * 100⟩

/-- The dictionary returned by `comparar_propostas` on its non-exception
paths: `analise = none` models the empty analise dict of the
no-proposals branch. -/
structure ResultadoComparacao where
  propostas : List Proposta
  analise : Option Analise
deriving Repr, DecidableEq

/-- `comparar_propostas` (source lines 275-338).  Returns `none` for the
`{}` produced when the bare `except` catches the `ZeroDivisionError` of
`variacao_percentual` (floats: division by 0.0 raises), `some ⟨[], none⟩`
for the explicit empty result of the no-proposals branch (empty proposal
list, empty analise dict), and otherwise the full comparison. -/
def comparar_propostas (st : Store) (solicitacao_id : Nat) :
    Option ResultadoComparacao :=
  match (propostasOrdenadas st solicitacao_id).head?,
        (propostasOrdenadas st solicitacao_id).getLast? with
  | some menor, some maior =>
      if maior.valor_total = 0 then none
      else
        some ⟨propostasOrdenadas st solicitacao_id,
          some (mkAnalise (propostasOrdenadas st solicitacao_id) menor maior)⟩
  | _, _ => some ⟨[], none⟩

/-- `comparar_propostas` as the caller observes it: the connection only ever
executes SELECTs, so the store comes back unchanged alongside the result. -/
def comparar_propostas_op (st : Store) (solicitacao_id : Nat) :
    Store × Option ResultadoComparacao :=
  (st, comparar_propostas st solicitacao_id)

/-- The status rewrite performed by the two UPDATEs of
`selecionar_vencedora`: the row with `id = proposta_id` becomes
`vencedora` (whatever request it belongs to), every other row with
`solicitacao_id = solicitacao_id` becomes `nao_selecionada`. -/
def awardStatus (solicitacao_id proposta_id : Nat) (p : Proposta) : Proposta :=
  if p.id == proposta_id then { p with status := "vencedora" }
  else if p.solicitacao_id == solicitacao_id then { p with status := "nao_selecionada" }
  else p

/-- The committed write set of a successful `selecionar_vencedora`. -/
def awardStore (st : Store) (solicitacao_id proposta_id : Nat)
    (criterio_selecao justificativa : String) (economia : Rat) : Store :=
  { st with
      comparacoes := st.comparacoes ++
        [⟨solicitacao_id, proposta_id, criterio_selecao, justificativa, economia⟩],
      propostas := st.propostas.map (awardStatus solicitacao_id proposta_id),
      solicitacoes := st.solicitacoes.map fun s =>
        if s.id == solicitacao_id then { s with status := "concluida" } else s }

/-- The economia read of `selecionar_vencedora`: the get with default 0
of the key economia_potencial, so 0 when the analise dict is empty. -/
def econOf (r : ResultadoComparacao) : Rat :=
  match r.analise with
  | some a => a.economia_potencial
  | none => 0

/-- `selecionar_vencedora` (source lines 340-410).  It first re-runs
`comparar_propostas`; if that returned `{}` the subscript
the subscripting of the missing analise key raises `KeyError`, the bare
except block returns `False` and nothing was committed.  Otherwise
economia is read from the analise dict (default 0), the award
row is inserted, the statuses rewritten, and the function returns `True`.
The source never checks whether an award already exists. -/
def selecionar_vencedora (st : Store) (solicitacao_id proposta_id : Nat)
    (criterio_selecao justificativa : String) : Store × Bool :=
  match comparar_propostas st solicitacao_id with
  | none => (st, false)
  | some resultado =>
      (awardStore st solicitacao_id proposta_id criterio_selecao justificativa
        (econOf resultado), true)

/-! ### Concrete fixtures (literal database states, as produced by the
operations themselves — see the sanity theorems below). -/

/-- An open request (status `enviada`) with id 1. -/
def solicitacaoAberta : Solicitacao := ⟨1, "ED-1", "Equipamentos UTI", "enviada"⟩

/-- Line item of request 1: quantity 5. -/
def itemMonitor : ItemSolicitacao := ⟨1, 1, "EQ-001", "Monitor", 5, "UN", ""⟩

/-- Store holding one open request with one line item and no proposals. -/
def stComItem : Store := ⟨[solicitacaoAberta], [itemMonitor], [], [], [], 2, 2, 1⟩

/-- Store whose only request is already closed (`concluida`), with an
award row recorded. -/
def stFechada : Store :=
  ⟨[⟨1, "ED-1", "Equipamentos UTI", "concluida"⟩], [itemMonitor], [],
    [], [⟨1, 99, "menor_preco", "", 0⟩], 2, 2, 1⟩

/-- Store with one received proposal of total 7 for request 1. -/
def stUmaProposta : Store :=
  ⟨[solicitacaoAberta], [itemMonitor],
    [⟨1, 1, 1, 7, "recebida"⟩],
    [⟨1, 1, 2, 7, "", ""⟩], [], 2, 2, 2⟩

/-- Store with one proposal of total 0 for request 1. -/
def stPropostaZero : Store :=
  ⟨[solicitacaoAberta], [itemMonitor],
    [⟨1, 1, 1, 0, "recebida"⟩],
    [⟨1, 1, 0, 0, "", ""⟩], [], 2, 2, 2⟩

/-- Store with the three proposals of the source's own test
(totals 78500, 73500, 84000 for request 1). -/
def stTresPropostas : Store :=
  ⟨[solicitacaoAberta], [itemMonitor],
    [⟨1, 1, 1, 78500, "recebida"⟩,
     ⟨2, 1, 2, 73500, "recebida"⟩,
     ⟨3, 1, 3, 84000, "recebida"⟩],
    [], [], 2, 2, 4⟩

/-! ### Helper lemmas -/

instance : IsTotal Proposta (fun a b => a.valor_total ≤ b.valor_total) :=
  ⟨fun a b => le_total a.valor_total b.valor_total⟩

instance : IsTrans Proposta (fun a b => a.valor_total ≤ b.valor_total) :=
  ⟨fun _ _ _ h1 h2 => le_trans h1 h2⟩

theorem itensRows_length (sid : Nat) :
    ∀ (n : Nat) (l : List ItemInput), (itensRows sid n l).length = l.length := by
  intro n l
  induction l generalizing n with
  | nil => rfl
  | cons it rest ih => simp [itensRows, ih]

theorem itensRows_fields (sid : Nat) :
    ∀ (n : Nat) (l : List ItemInput),
      (itensRows sid n l).map
          (fun row => (row.codigo_item, row.descricao_item, row.quantidade, row.unidade)) =
        l.map (fun it => (it.codigo, it.descricao, it.quantidade, it.unidade)) := by
  intro n l
  induction l generalizing n with
  | nil => rfl
  | cons it rest ih => simp [itensRows, ih]

theorem itensRows_solicitacao (sid : Nat) :
    ∀ (n : Nat) (l : List ItemInput) (row : ItemSolicitacao),
      row ∈ itensRows sid n l → row.solicitacao_id = sid := by
  intro n l
  induction l generalizing n with
  | nil => intro row h; cases h
  | cons it rest ih =>
      intro row h
      rcases List.mem_cons.mp h with h | h
      · subst h; rfl
      · exact ih _ _ h

theorem propostasOrdenadas_sorted (st : Store) (sid : Nat) :
    (propostasOrdenadas st sid).Sorted (fun a b => a.valor_total ≤ b.valor_total) :=
  List.sorted_insertionSort _ _

theorem propostasOrdenadas_perm (st : Store) (sid : Nat) :
    (propostasOrdenadas st sid).Perm
      (st.propostas.filter fun p => p.solicitacao_id == sid) :=
  List.perm_insertionSort _ _

theorem sorted_head_le {l : List Proposta}
    (hs : l.Sorted (fun a b => a.valor_total ≤ b.valor_total))
    {h0 : Proposta} (hh : l.head? = some h0) :
    ∀ q ∈ l, h0.valor_total ≤ q.valor_total := by
  rcases List.head?_eq_some_iff.mp hh with ⟨ys, rfl⟩
  intro q hq
  rcases List.mem_cons.mp hq with rfl | hq
  · exact le_refl _
  · exact (List.sorted_cons.mp hs).1 q hq

theorem sorted_getLast_ge {l : List Proposta}
    (hs : l.Sorted (fun a b => a.valor_total ≤ b.valor_total))
    {m : Proposta} (hm : l.getLast? = some m) :
    ∀ q ∈ l, q.valor_total ≤ m.valor_total := by
  rcases List.getLast?_eq_some_iff.mp hm with ⟨ys, rfl⟩
  intro q hq
  rcases List.mem_append.mp hq with hq | hq
  · exact (List.pairwise_append.mp hs).2.2 q hq m (List.mem_singleton_self m)
  · rcases List.mem_singleton.mp hq with rfl
    exact le_refl _

theorem comparar_eq_empty {st : Store} {sid : Nat}
    (h : propostasOrdenadas st sid = []) :
    comparar_propostas st sid = some ⟨[], none⟩ := by
  unfold comparar_propostas
  rw [h]
  rfl

theorem comparar_eq_none {st : Store} {sid : Nat} {menor maior : Proposta}
    (hh : (propostasOrdenadas st sid).head? = some menor)
    (hl : (propostasOrdenadas st sid).getLast? = some maior)
    (hz : maior.valor_total = 0) :
    comparar_propostas st sid = none := by
  unfold comparar_propostas
  rw [hh, hl]
  simp [hz]

theorem comparar_eq_full {st : Store} {sid : Nat} {menor maior : Proposta}
    (hh : (propostasOrdenadas st sid).head? = some menor)
    (hl : (propostasOrdenadas st sid).getLast? = some maior)
    (hnz : maior.valor_total ≠ 0) :
    comparar_propostas st sid =
      some ⟨propostasOrdenadas st sid,
        some (mkAnalise (propostasOrdenadas st sid) menor maior)⟩ := by
  unfold comparar_propostas
  rw [hh, hl]
  simp [hnz]

theorem comparar_eq_none_iff {st : Store} {sid : Nat} :
    comparar_propostas st sid = none ↔
      ∃ maior, (propostasOrdenadas st sid).getLast? = some maior ∧
        maior.valor_total = 0 := by
  constructor
  · intro h
    cases hh : (propostasOrdenadas st sid).head? with
    | none =>
        have h0 : propostasOrdenadas st sid = [] := List.head?_eq_none_iff.mp hh
        rw [comparar_eq_empty h0] at h; cases h
    | some a =>
        cases hl : (propostasOrdenadas st sid).getLast? with
        | none =>
            have h0 : propostasOrdenadas st sid = [] := List.getLast?_eq_none_iff.mp hl
            rw [comparar_eq_empty h0] at h; cases h
        | some m =>
            by_cases hz : m.valor_total = 0
            · exact ⟨m, rfl, hz⟩
            · rw [comparar_eq_full hh hl hz] at h; cases h
  · rintro ⟨m, hm, hz⟩
    cases hh : (propostasOrdenadas st sid).head? with
    | none =>
        have h0 : propostasOrdenadas st sid = [] := List.head?_eq_none_iff.mp hh
        rw [h0] at hm; cases hm
    | some a => exact comparar_eq_none hh hm hz

theorem maior_totals_bound {st : Store} {sid : Nat} {m : Proposta}
    (hm : (propostasOrdenadas st sid).getLast? = some m) :
    m.valor_total ∈ totalsDe st sid ∧ ∀ x ∈ totalsDe st sid, x ≤ m.valor_total := by
  have hmem : m ∈ propostasOrdenadas st sid := by
    rcases List.getLast?_eq_some_iff.mp hm with ⟨ys, hys⟩
    rw [hys]; simp
  have hub := sorted_getLast_ge (propostasOrdenadas_sorted st sid) hm
  constructor
  · exact List.mem_map_of_mem _ ((propostasOrdenadas_perm st sid).mem_iff.mp hmem)
  · intro x hx
    rcases List.mem_map.mp hx with ⟨q, hq, rfl⟩
    exact hub q ((propostasOrdenadas_perm st sid).mem_iff.mpr hq)

theorem menor_totals_bound {st : Store} {sid : Nat} {m : Proposta}
    (hm : (propostasOrdenadas st sid).head? = some m) :
    m.valor_total ∈ totalsDe st sid ∧ ∀ x ∈ totalsDe st sid, m.valor_total ≤ x := by
  have hmem : m ∈ propostasOrdenadas st sid := by
    rcases List.head?_eq_some_iff.mp hm with ⟨ys, hys⟩
    rw [hys]; simp
  have hlb := sorted_head_le (propostasOrdenadas_sorted st sid) hm
  constructor
  · exact List.mem_map_of_mem _ ((propostasOrdenadas_perm st sid).mem_iff.mp hmem)
  · intro x hx
    rcases List.mem_map.mp hx with ⟨q, hq, rfl⟩
    exact hlb q ((propostasOrdenadas_perm st sid).mem_iff.mpr hq)

theorem comparar_none_iff_totals (st : Store) (sid : Nat) :
    comparar_propostas st sid = none ↔
      (0 ∈ totalsDe st sid ∧ ∀ x ∈ totalsDe st sid, x ≤ 0) := by
  rw [comparar_eq_none_iff]
  constructor
  · rintro ⟨m, hm, hz⟩
    obtain ⟨hmem, hub⟩ := maior_totals_bound hm
    rw [hz] at hmem hub
    exact ⟨hmem, hub⟩
  · rintro ⟨h0, hub⟩
    have hfe : (st.propostas.filter fun p => p.solicitacao_id == sid) ≠ [] := by
      intro hnil
      rw [totalsDe, hnil] at h0
      cases h0
    have hne : propostasOrdenadas st sid ≠ [] := by
      intro hnil
      have hp2 := propostasOrdenadas_perm st sid
      rw [hnil] at hp2
      exact hfe hp2.symm.eq_nil
    obtain ⟨m, hm⟩ : ∃ m, (propostasOrdenadas st sid).getLast? = some m :=
      ⟨(propostasOrdenadas st sid).getLast hne, List.getLast?_eq_getLast _ _⟩
    obtain ⟨hmem, hub'⟩ := maior_totals_bound hm
    exact ⟨m, hm, le_antisymm (hub _ hmem) (hub' 0 h0)⟩

theorem awardStatus_solicitacao (sid pid : Nat) (p : Proposta) :
    (awardStatus sid pid p).solicitacao_id = p.solicitacao_id := by
  unfold awardStatus; split_ifs <;> rfl

theorem awardStatus_valor (sid pid : Nat) (p : Proposta) :
    (awardStatus sid pid p).valor_total = p.valor_total := by
  unfold awardStatus; split_ifs <;> rfl

theorem totals_awardStore (st : Store) (sid pid : Nat) (c j : String) (e : Rat)
    (sid2 : Nat) : totalsDe (awardStore st sid pid c j e) sid2 = totalsDe st sid2 := by
  show ((st.propostas.map (awardStatus sid pid)).filter
      fun p => p.solicitacao_id == sid2).map (·.valor_total) = _
  rw [List.filter_map, List.map_map]
  have h1 : ((fun p : Proposta => p.solicitacao_id == sid2) ∘ awardStatus sid pid) =
      fun p => p.solicitacao_id == sid2 := by
    funext p; simp [Function.comp, awardStatus_solicitacao]
  have h2 : ((fun p : Proposta => p.valor_total) ∘ awardStatus sid pid) =
      fun p : Proposta => p.valor_total := by
    funext p; simp [Function.comp, awardStatus_valor]
  rw [h1, h2]
  rfl

theorem selecionar_eq_of_none {st : Store} {sid pid : Nat} {c j : String}
    (h : comparar_propostas st sid = none) :
    selecionar_vencedora st sid pid c j = (st, false) := by
  unfold selecionar_vencedora; rw [h]

theorem selecionar_eq_of_some {st : Store} {sid pid : Nat} {c j : String}
    {r : ResultadoComparacao} (h : comparar_propostas st sid = some r) :
    selecionar_vencedora st sid pid c j =
      (awardStore st sid pid c j (econOf r), true) := by
  unfold selecionar_vencedora; rw [h]

theorem selecionar_success {st st2 : Store} {sid pid : Nat} {c j : String}
    (h : selecionar_vencedora st sid pid c j = (st2, true)) :
    ∃ r, comparar_propostas st sid = some r ∧
      st2 = awardStore st sid pid c j (econOf r) := by
  cases hc : comparar_propostas st sid with
  | none =>
      rw [selecionar_eq_of_none hc] at h
      injection h with h1 h2
      cases h2
  | some r =>
      rw [selecionar_eq_of_some hc] at h
      injection h with h1 h2
      exact ⟨r, rfl, h1.symm⟩

/-- Claim C1 (amended): for every call, `registrar_proposta` stores each
proposal line item with exactly the caller-supplied `preco_unitario` and
`preco_total` (it never recomputes `unit_price * quantity`), and the
proposal's `valor_total` is the sum of the caller-supplied `preco_total`
values, not of recomputed ones. -/
theorem c1_registrar_stores_caller_totals (st : Store) (sid fid : Nat)
    (itens : List ItemPropostaInput) :
    (registrar_proposta st sid fid itens).1.itensProposta =
      st.itensProposta ++ itens.map (fun it =>
        ⟨st.nextPropostaId, it.item_solicitacao_id, it.preco_unitario,
          it.preco_total, it.marca, it.modelo⟩) ∧
    (registrar_proposta st sid fid itens).1.propostas =
      st.propostas ++ [⟨st.nextPropostaId, sid, fid,
        (itens.map (·.preco_total)).sum, "recebida"⟩] :=
  ⟨rfl, rfl⟩

/-- Claim C1 counterexample: against a request whose single line item has
quantity 5, a proposal priced at `preco_unitario = 2` with caller-claimed
`preco_total = 7` is stored with line total 7, although
`unit_price * quantity = 10`. -/
theorem c1_counterexample :
    (registrar_proposta stComItem 1 1 [⟨1, 2, 7, "", ""⟩]).1.itensProposta =
      [⟨1, 1, 2, 7, "", ""⟩] ∧
    itemMonitor ∈ stComItem.itensSolicitacao ∧
    itemMonitor.id = 1 ∧ itemMonitor.quantidade = 5 ∧
    (7 : Rat) ≠ 2 * 5 :=
  ⟨by decide, by decide, by decide, by decide, by norm_num⟩

/-- Claim C5 (amended): `registrar_proposta` with an empty `line_prices`
list does not fail: it returns a fresh proposal id and stores a proposal
row with `valor_total = 0` (the empty Python `sum`) and no line items. -/
theorem c5_registrar_vazia_succeeds (st : Store) (sid fid : Nat) :
    (registrar_proposta st sid fid []).2 = some st.nextPropostaId ∧
    (registrar_proposta st sid fid []).1.propostas =
      st.propostas ++ [⟨st.nextPropostaId, sid, fid, 0, "recebida"⟩] ∧
    (registrar_proposta st sid fid []).1.itensProposta = st.itensProposta := by
  refine ⟨rfl, rfl, ?_⟩
  show st.itensProposta ++ itensPropostaRows st.nextPropostaId [] = st.itensProposta
  simp [itensPropostaRows]

/-- Claim C5 counterexample: on a store with one open request and no
proposals, submitting an empty `line_prices` list returns proposal id 1 and
creates a proposal row (total 0) — no `ValidationError` occurs and the
store is changed. -/
theorem c5_counterexample :
    (registrar_proposta stComItem 1 1 []).2 = some 1 ∧
    (registrar_proposta stComItem 1 1 []).1.propostas =
      [⟨1, 1, 1, 0, "recebida"⟩] := by decide

/-- Claim C6 (amended): `registrar_proposta` never inspects the request's
status: even when the referenced request is `concluida` (closed) the call
returns a fresh proposal id and stores the proposal row. -/
theorem c6_registrar_fechada_succeeds (st : Store) (sid fid : Nat)
    (itens : List ItemPropostaInput) (s : Solicitacao)
    (_hs : s ∈ st.solicitacoes) (_hid : s.id = sid)
    (_hclosed : s.status = "concluida") :
    (registrar_proposta st sid fid itens).2 = some st.nextPropostaId ∧
    (registrar_proposta st sid fid itens).1.propostas =
      st.propostas ++ [⟨st.nextPropostaId, sid, fid,
        (itens.map (·.preco_total)).sum, "recebida"⟩] :=
  ⟨rfl, rfl⟩

/-- Claim C6 witness: the amended statement evaluated on the concrete
closed-request store `stFechada`. -/
theorem c6_witness :
    ((⟨1, "ED-1", "Equipamentos UTI", "concluida"⟩ : Solicitacao) ∈
        stFechada.solicitacoes ∧
      (⟨1, "ED-1", "Equipamentos UTI", "concluida"⟩ : Solicitacao).id = 1 ∧
      (⟨1, "ED-1", "Equipamentos UTI", "concluida"⟩ : Solicitacao).status =
        "concluida") ∧
    ((registrar_proposta stFechada 1 2 [⟨1, 2, 10, "", ""⟩]).2 =
        some stFechada.nextPropostaId ∧
      (registrar_proposta stFechada 1 2 [⟨1, 2, 10, "", ""⟩]).1.propostas =
        stFechada.propostas ++ [⟨stFechada.nextPropostaId, 1, 2,
          (([⟨1, 2, 10, "", ""⟩] : List ItemPropostaInput).map
            (·.preco_total)).sum, "recebida"⟩]) :=
  ⟨⟨by decide, rfl, rfl⟩,
    c6_registrar_fechada_succeeds stFechada 1 2 [⟨1, 2, 10, "", ""⟩]
      ⟨1, "ED-1", "Equipamentos UTI", "concluida"⟩ (by decide) rfl rfl⟩

/-- Claim C6 counterexample: request 1 of `stFechada` is closed
(`concluida`), yet submitting a proposal against it returns id 1 and
stores a proposal row instead of raising `StateError`. -/
theorem c6_counterexample :
    stFechada.solicitacoes.map (fun s => (s.id, s.status)) = [(1, "concluida")] ∧
    (registrar_proposta stFechada 1 2 [⟨1, 2, 10, "", ""⟩]).2 = some 1 ∧
    (registrar_proposta stFechada 1 2 [⟨1, 2, 10, "", ""⟩]).1.propostas.length = 1 := by
  refine ⟨by decide, by decide, by decide⟩

/-- Claim C8 (amended): `criar_solicitacao` performs no validation — an
empty `itens` list or items with `quantidade ≤ 0` are accepted and the
request row is still created; for every `itens` list it persists exactly
`itens.length` line-item rows, each carrying the submitted code,
description, quantity and unit unchanged and belonging to the new request. -/
theorem c8_criar_sem_validacao (st : Store) (ed d : String)
    (itens : List ItemInput) :
    (criar_solicitacao st ed d itens).2 = some st.nextSolicitacaoId ∧
    (criar_solicitacao st ed d itens).1.solicitacoes =
      st.solicitacoes ++ [⟨st.nextSolicitacaoId, ed, d, "enviada"⟩] ∧
    (criar_solicitacao st ed d itens).1.itensSolicitacao =
      st.itensSolicitacao ++
        itensRows st.nextSolicitacaoId st.nextItemSolicitacaoId itens ∧
    (itensRows st.nextSolicitacaoId st.nextItemSolicitacaoId itens).length =
      itens.length ∧
    (itensRows st.nextSolicitacaoId st.nextItemSolicitacaoId itens).map
        (fun row => (row.codigo_item, row.descricao_item, row.quantidade,
          row.unidade)) =
      itens.map (fun it => (it.codigo, it.descricao, it.quantidade, it.unidade)) ∧
    ∀ row ∈ itensRows st.nextSolicitacaoId st.nextItemSolicitacaoId itens,
      row.solicitacao_id = st.nextSolicitacaoId :=
  ⟨rfl, rfl, rfl, itensRows_length _ _ _, itensRows_fields _ _ _,
    fun row h => itensRows_solicitacao _ _ _ row h⟩

/-- Claim C8 counterexample: `criar_solicitacao` with an empty `itens` list
returns request id 1 and creates the request row (no `ValidationError`),
and an item with quantity 0 is likewise persisted unchanged. -/
theorem c8_counterexample :
    (criar_solicitacao Store.empty "ED-9" "desc" []).2 = some 1 ∧
    (criar_solicitacao Store.empty "ED-9" "desc" []).1.solicitacoes =
      [⟨1, "ED-9", "desc", "enviada"⟩] ∧
    (criar_solicitacao Store.empty "ED-9" "desc" []).1.itensSolicitacao = [] ∧
    (criar_solicitacao Store.empty "ED-9" "desc"
      [⟨"IT-1", "item", 0, "UN", ""⟩]).2 = some 1 ∧
    (criar_solicitacao Store.empty "ED-9" "desc"
      [⟨"IT-1", "item", 0, "UN", ""⟩]).1.itensSolicitacao =
      [⟨1, 1, "IT-1", "item", 0, "UN", ""⟩] := by decide

/-- Claim C9: `comparar_propostas` only executes SELECTs — the store it
hands back is the input store, and a second call on that store returns the
identical statistics. -/
theorem c9_comparar_idempotente (st : Store) (sid : Nat) :
    (comparar_propostas_op st sid).1 = st ∧
    (comparar_propostas_op (comparar_propostas_op st sid).1 sid).2 =
      (comparar_propostas_op st sid).2 :=
  ⟨rfl, rfl⟩

/-- Claim C4 (amended): for every request whose proposal set is non-empty
and whose most expensive total is nonzero, `comparar_propostas` returns the
proposals sorted by total ascending and an `analise` whose count, cheapest
and most expensive totals, mean, `economia_potencial` and
`variacao_percentual` satisfy the documented formulas exactly (hence within
any tolerance), with `variacao_percentual = 0` when there is exactly one
proposal.  When the most expensive total is zero the source instead hits a
`ZeroDivisionError` and returns `{}`. -/
theorem c4_comparar_analise (st : Store) (sid : Nat) (menor maior : Proposta)
    (hh : (propostasOrdenadas st sid).head? = some menor)
    (hl : (propostasOrdenadas st sid).getLast? = some maior)
    (hnz : maior.valor_total ≠ 0) :
    ∃ a : Analise,
      comparar_propostas st sid = some ⟨propostasOrdenadas st sid, some a⟩ ∧
      (propostasOrdenadas st sid).Sorted (fun p q => p.valor_total ≤ q.valor_total) ∧
      (propostasOrdenadas st sid).Perm
        (st.propostas.filter fun p => p.solicitacao_id == sid) ∧
      a.total_propostas = (totalsDe st sid).length ∧
      a.menor_valor ∈ totalsDe st sid ∧
      (∀ x ∈ totalsDe st sid, a.menor_valor ≤ x) ∧
      a.maior_valor ∈ totalsDe st sid ∧
      (∀ x ∈ totalsDe st sid, x ≤ a.maior_valor) ∧
      a.media_precos = (totalsDe st sid).sum / ((totalsDe st sid).length : Rat) ∧
      a.economia_potencial = a.maior_valor - a.menor_valor ∧
      a.variacao_percentual = a.economia_potencial / a.maior_valor * 100 ∧
      ((totalsDe st sid).length = 1 → a.variacao_percentual = 0) := by
  refine ⟨mkAnalise (propostasOrdenadas st sid) menor maior,
    comparar_eq_full hh hl hnz, propostasOrdenadas_sorted st sid,
    propostasOrdenadas_perm st sid, ?_, ?_, ?_, ?_, ?_, ?_, ?_, ?_, ?_⟩
  · show (propostasOrdenadas st sid).length = (totalsDe st sid).length
    rw [totalsDe, List.length_map]
    exact (propostasOrdenadas_perm st sid).length_eq
  · exact (menor_totals_bound hh).1
  · exact (menor_totals_bound hh).2
  · exact (maior_totals_bound hl).1
  · exact (maior_totals_bound hl).2
  · show ((propostasOrdenadas st sid).map (·.valor_total)).sum /
        ((propostasOrdenadas st sid).length : Rat) = _
    have hperm := (propostasOrdenadas_perm st sid).map (·.valor_total)
    rw [hperm.sum_eq, totalsDe]
    rw [(propostasOrdenadas_perm st sid).length_eq, List.length_map]
  · rfl
  · rfl
  · intro hlen
    have hlen2 : (propostasOrdenadas st sid).length = 1 := by
      rw [(propostasOrdenadas_perm st sid).length_eq]
      rw [totalsDe, List.length_map] at hlen
      exact hlen
    rcases List.length_eq_one.mp hlen2 with ⟨x, hx⟩
    have hh2 : menor = x := by
      rw [hx] at hh
      simpa using hh.symm
    have hl2 : maior = x := by
      rw [hx] at hl
      simpa using hl.symm
    show (maior.valor_total - menor.valor_total) / maior.valor_total * 100 = 0
    rw [hh2, hl2, sub_self, zero_div, zero_mul]

/-- Claim C4 witness: the amended statement evaluated on the store holding
the three proposals of the source's own test. -/
theorem c4_witness :
    ((propostasOrdenadas stTresPropostas 1).head? =
        some ⟨2, 1, 2, 73500, "recebida"⟩ ∧
      (propostasOrdenadas stTresPropostas 1).getLast? =
        some ⟨3, 1, 3, 84000, "recebida"⟩ ∧
      (⟨3, 1, 3, 84000, "recebida"⟩ : Proposta).valor_total ≠ 0) ∧
    (∃ a : Analise,
      comparar_propostas stTresPropostas 1 =
        some ⟨propostasOrdenadas stTresPropostas 1, some a⟩ ∧
      (propostasOrdenadas stTresPropostas 1).Sorted
        (fun p q => p.valor_total ≤ q.valor_total) ∧
      (propostasOrdenadas stTresPropostas 1).Perm
        (stTresPropostas.propostas.filter fun p => p.solicitacao_id == 1) ∧
      a.total_propostas = (totalsDe stTresPropostas 1).length ∧
      a.menor_valor ∈ totalsDe stTresPropostas 1 ∧
      (∀ x ∈ totalsDe stTresPropostas 1, a.menor_valor ≤ x) ∧
      a.maior_valor ∈ totalsDe stTresPropostas 1 ∧
      (∀ x ∈ totalsDe stTresPropostas 1, x ≤ a.maior_valor) ∧
      a.media_precos = (totalsDe stTresPropostas 1).sum /
        ((totalsDe stTresPropostas 1).length : Rat) ∧
      a.economia_potencial = a.maior_valor - a.menor_valor ∧
      a.variacao_percentual = a.economia_potencial / a.maior_valor * 100 ∧
      ((totalsDe stTresPropostas 1).length = 1 → a.variacao_percentual = 0)) :=
  ⟨⟨by decide, by decide, by decide⟩,
    c4_comparar_analise stTresPropostas 1 ⟨2, 1, 2, 73500, "recebida"⟩
      ⟨3, 1, 3, 84000, "recebida"⟩ (by decide) (by decide) (by decide)⟩

/-- Claim C4 counterexample: a request with exactly one proposal whose
total is 0 — a non-empty proposal set — makes `comparar_propostas` return
`{}` (here `none`): no count, no totals and no `variacao_percentual` are
reported, so the claim fails as stated for this non-empty set. -/
theorem c4_counterexample :
    stPropostaZero.propostas.length = 1 ∧
    comparar_propostas stPropostaZero 1 = none := ⟨by decide, by decide⟩

/-- Claim C7 (amended): for an existing request with zero proposals,
`comparar_propostas` does not raise and performs no division: it returns
the explicit empty result whose `analise` dict is empty — it carries no
`total_propostas` (or any other) statistic at all. -/
theorem c7_comparar_sem_propostas (st : Store) (sid : Nat) (s : Solicitacao)
    (_hs : s ∈ st.solicitacoes) (_hid : s.id = sid)
    (hnone : ∀ p ∈ st.propostas, p.solicitacao_id ≠ sid) :
    comparar_propostas st sid = some ⟨[], none⟩ := by
  apply comparar_eq_empty
  unfold propostasOrdenadas
  have hf : (st.propostas.filter fun p => p.solicitacao_id == sid) = [] := by
    apply List.filter_eq_nil_iff.mpr
    intro p hp
    simpa using hnone p hp
  rw [hf]
  rfl

/-- Claim C7 witness: the amended statement on the concrete store with one
open request and no proposals. -/
theorem c7_witness :
    (solicitacaoAberta ∈ stComItem.solicitacoes ∧ solicitacaoAberta.id = 1 ∧
      (∀ p ∈ stComItem.propostas, p.solicitacao_id ≠ 1)) ∧
    comparar_propostas stComItem 1 = some ⟨[], none⟩ :=
  ⟨⟨by decide, by decide, by decide⟩,
    c7_comparar_sem_propostas stComItem 1 solicitacaoAberta (by decide)
      (by decide) (by decide)⟩

/-- Claim C7 counterexample: request 1 of `stComItem` exists and has zero
proposals; `comparar_propostas` returns the empty result whose `analise`
dict is empty (`none`) — no `total_propostas = 0` statistic is reported,
contrary to the claim. -/
theorem c7_counterexample :
    stComItem.solicitacoes.map (·.id) = [1] ∧
    stComItem.propostas = [] ∧
    comparar_propostas stComItem 1 = some ⟨[], none⟩ := by decide

/-- Claim C10: when a request has at least one proposal and every proposal
total is 0 (so the most expensive total is 0), the `variacao_percentual`
division of `comparar_propostas` divides by zero; the bare `except` catches
the exception and the call returns `{}` (`none`), carrying no statistics,
instead of a comparison result. -/
theorem c10_divisao_por_zero (st : Store) (sid : Nat) (p : Proposta)
    (hp : p ∈ st.propostas) (hpsid : p.solicitacao_id = sid)
    (hz : ∀ q ∈ st.propostas, q.solicitacao_id = sid → q.valor_total = 0) :
    comparar_propostas st sid = none := by
  rw [comparar_none_iff_totals]
  constructor
  · have hpf : p ∈ st.propostas.filter (fun q => q.solicitacao_id == sid) :=
      List.mem_filter.mpr ⟨hp, by simpa using hpsid⟩
    have h0 := hz p hp hpsid
    rw [← h0]
    exact List.mem_map_of_mem _ hpf
  · intro x hx
    rcases List.mem_map.mp hx with ⟨q, hq, rfl⟩
    rcases List.mem_filter.mp hq with ⟨hq1, hq2⟩
    rw [hz q hq1 (by simpa using hq2)]

/-- Claim C10 witness: the statement on the concrete store with one
proposal of total 0. -/
theorem c10_witness :
    ((⟨1, 1, 1, 0, "recebida"⟩ : Proposta) ∈ stPropostaZero.propostas ∧
      (⟨1, 1, 1, 0, "recebida"⟩ : Proposta).solicitacao_id = 1 ∧
      (∀ q ∈ stPropostaZero.propostas, q.solicitacao_id = 1 →
        q.valor_total = 0)) ∧
    comparar_propostas stPropostaZero 1 = none :=
  ⟨⟨by decide, by decide, by decide⟩,
    c10_divisao_por_zero stPropostaZero 1 ⟨1, 1, 1, 0, "recebida"⟩ (by decide)
      (by decide) (by decide)⟩

theorem filter_eq_singleton_of_id {l : List Proposta} {p : Proposta}
    {Q : Proposta → Bool} (hn : (l.map (·.id)).Nodup) (hp : p ∈ l)
    (hQp : Q p = true) (hQ : ∀ q, Q q = true → q.id = p.id) :
    l.filter Q = [p] := by
  induction l with
  | nil => cases hp
  | cons a t ih =>
      have hn2 : (∀ x ∈ t, ¬ x.id = a.id) ∧
          (List.map (fun x => x.id) t).Nodup := by simpa using hn
      rcases List.mem_cons.mp hp with rfl | hpt
      · rw [List.filter_cons_of_pos hQp]
        have ht : t.filter Q = [] := by
          apply List.filter_eq_nil_iff.mpr
          intro q hq hQq
          exact absurd (hQ q hQq) (hn2.1 q hq)
        rw [ht]
      · have hQa : Q a = false := by
          by_contra hc
          have ha : a.id = p.id := hQ a (by simpa using hc)
          exact hn2.1 p hpt ha.symm
        rw [List.filter_cons_of_neg (by simp [hQa])]
        exact ih hn2.2 hpt

theorem awardStore_solicitacoes (st : Store) (sid pid : Nat) (c j : String)
    (e : Rat) :
    ∀ s ∈ (awardStore st sid pid c j e).solicitacoes,
      s.id = sid → s.status = "concluida" := by
  intro s hs hid
  rcases List.mem_map.mp hs with ⟨s0, hs0, rfl⟩
  by_cases h : s0.id = sid
  · simp [h]
  · simp only [beq_iff_eq, if_neg h] at hid ⊢
    exact absurd hid h

theorem comparar_awardStore_ne_none (st : Store) (sid pid : Nat)
    (c j : String) (e : Rat) (hne : comparar_propostas st sid ≠ none) :
    comparar_propostas (awardStore st sid pid c j e) sid ≠ none := by
  intro h
  apply hne
  rw [comparar_none_iff_totals] at h ⊢
  rwa [totals_awardStore] at h

/-- Claim C2 (amended): `selecionar_vencedora` has no one-shot guard.  For
every request on which it has already succeeded, a second call with the
same `request_id` and any `proposal_id` succeeds again (returns `True`,
not `StateError`); the request's status remains `concluida` and the
originally recorded award row is still in place, but a second award row is
appended, so the award record is no longer unique. -/
theorem c2_segunda_selecao (st st2 : Store) (sid pid pid2 : Nat)
    (c j c2 j2 : String)
    (hsucc : selecionar_vencedora st sid pid c j = (st2, true)) :
    (selecionar_vencedora st2 sid pid2 c2 j2).2 = true ∧
    (∃ e : Rat, (selecionar_vencedora st2 sid pid2 c2 j2).1.comparacoes =
      st2.comparacoes ++ [⟨sid, pid2, c2, j2, e⟩]) ∧
    (∃ e : Rat, st2.comparacoes = st.comparacoes ++ [⟨sid, pid, c, j, e⟩]) ∧
    (∀ s ∈ (selecionar_vencedora st2 sid pid2 c2 j2).1.solicitacoes,
      s.id = sid → s.status = "concluida") := by
  obtain ⟨r, hc, hst2⟩ := selecionar_success hsucc
  have hne : comparar_propostas st2 sid ≠ none := by
    rw [hst2]
    exact comparar_awardStore_ne_none st sid pid c j (econOf r) (by rw [hc]; intro h; cases h)
  obtain ⟨r2, hc2⟩ : ∃ r2, comparar_propostas st2 sid = some r2 := by
    cases h2 : comparar_propostas st2 sid with
    | none => exact absurd h2 hne
    | some r2 => exact ⟨r2, rfl⟩
  rw [selecionar_eq_of_some hc2]
  refine ⟨rfl, ⟨econOf r2, rfl⟩, ⟨econOf r, by rw [hst2]; rfl⟩, ?_⟩
  exact awardStore_solicitacoes st2 sid pid2 c2 j2 (econOf r2)

/-- Claim C2 counterexample: on the one-proposal store, awarding request 1
succeeds; the second `selecionar_vencedora` call on the same request also
returns `True` (the claim requires it to fail with `StateError`) and a
second award row appears. -/
theorem c2_counterexample :
    (selecionar_vencedora stUmaProposta 1 1 "menor_preco" "ok").2 = true ∧
    (selecionar_vencedora
      (selecionar_vencedora stUmaProposta 1 1 "menor_preco" "ok").1
      1 1 "menor_preco" "de novo").2 = true ∧
    (selecionar_vencedora
      (selecionar_vencedora stUmaProposta 1 1 "menor_preco" "ok").1
      1 1 "menor_preco" "de novo").1.comparacoes.length = 2 := by
  refine ⟨by decide, by decide, by decide⟩

/-- Claim C2 witness: the amended statement on the one-proposal store. -/
theorem c2_witness :
    selecionar_vencedora stUmaProposta 1 1 "menor_preco" "ok" =
      ((selecionar_vencedora stUmaProposta 1 1 "menor_preco" "ok").1, true) ∧
    ((selecionar_vencedora
        (selecionar_vencedora stUmaProposta 1 1 "menor_preco" "ok").1
        1 2 "menor_preco" "de novo").2 = true ∧
      (∃ e : Rat, (selecionar_vencedora
          (selecionar_vencedora stUmaProposta 1 1 "menor_preco" "ok").1
          1 2 "menor_preco" "de novo").1.comparacoes =
        (selecionar_vencedora stUmaProposta 1 1 "menor_preco" "ok").1.comparacoes
          ++ [⟨1, 2, "menor_preco", "de novo", e⟩]) ∧
      (∃ e : Rat, (selecionar_vencedora stUmaProposta 1 1 "menor_preco"
          "ok").1.comparacoes =
        stUmaProposta.comparacoes ++ [⟨1, 1, "menor_preco", "ok", e⟩]) ∧
      (∀ s ∈ (selecionar_vencedora
          (selecionar_vencedora stUmaProposta 1 1 "menor_preco" "ok").1
          1 2 "menor_preco" "de novo").1.solicitacoes,
        s.id = 1 → s.status = "concluida")) := by
  have h2 : (selecionar_vencedora stUmaProposta 1 1 "menor_preco" "ok").2 =
      true := by decide
  have heta : selecionar_vencedora stUmaProposta 1 1 "menor_preco" "ok" =
      ((selecionar_vencedora stUmaProposta 1 1 "menor_preco" "ok").1, true) := by
    rw [← h2]
  exact ⟨heta, c2_segunda_selecao stUmaProposta _ 1 1 2 "menor_preco" "ok"
    "menor_preco" "de novo" heta⟩

theorem awardStatus_id (sid pid : Nat) (q : Proposta) :
    (awardStatus sid pid q).id = q.id := by
  unfold awardStatus; split_ifs <;> rfl

/-- Claim C3: after a successful `selecionar_vencedora` on a request whose
chosen proposal id references a received proposal of that request (and
proposal ids are unique, as the PRIMARY KEY guarantees), exactly one
proposal of the request has status `vencedora`, every other proposal of
the request has status `nao_selecionada`, the winning-plus-rejected count
equals the number of proposals the request had before the award, and the
request's status is `concluida`. -/
theorem c3_selecionar_post (st st2 : Store) (sid pid : Nat) (c j : String)
    (p : Proposta) (hnodup : (st.propostas.map (·.id)).Nodup)
    (hp : p ∈ st.propostas) (hpid : p.id = pid)
    (hpsid : p.solicitacao_id = sid) (_hrec : p.status = "recebida")
    (hsucc : selecionar_vencedora st sid pid c j = (st2, true)) :
    (st2.propostas.filter fun q =>
        q.solicitacao_id == sid && q.status == "vencedora").length = 1 ∧
    (∀ q ∈ st2.propostas, q.solicitacao_id = sid → q.id ≠ pid →
      q.status = "nao_selecionada") ∧
    (st2.propostas.filter fun q => q.solicitacao_id == sid &&
        (q.status == "vencedora" || q.status == "nao_selecionada")).length =
      (st.propostas.filter fun q => q.solicitacao_id == sid).length ∧
    (∀ s ∈ st2.solicitacoes, s.id = sid → s.status = "concluida") := by
  obtain ⟨r, hc, hst2⟩ := selecionar_success hsucc
  subst hst2
  refine ⟨?_, ?_, ?_, awardStore_solicitacoes st sid pid c j (econOf r)⟩
  · show ((st.propostas.map (awardStatus sid pid)).filter
      fun q => q.solicitacao_id == sid && q.status == "vencedora").length = 1
    rw [List.filter_map, List.length_map]
    have hpred : ((fun q : Proposta =>
        q.solicitacao_id == sid && q.status == "vencedora") ∘
          awardStatus sid pid) =
        fun q0 => q0.id == pid && q0.solicitacao_id == sid := by
      funext q0
      simp only [Function.comp_apply]
      rw [Bool.eq_iff_iff]
      by_cases h1 : q0.id = pid <;> by_cases h2 : q0.solicitacao_id = sid <;>
        simp [awardStatus, h1, h2]
    rw [hpred]
    have hone : (st.propostas.filter
        fun q0 => q0.id == pid && q0.solicitacao_id == sid) = [p] := by
      apply filter_eq_singleton_of_id hnodup hp
      · simp [hpid, hpsid]
      · intro q hq
        simp only [Bool.and_eq_true, beq_iff_eq] at hq
        rw [hq.1, hpid]
    rw [hone]
    rfl
  · intro q hq hqsid hqpid
    rcases List.mem_map.mp hq with ⟨q0, hq0, rfl⟩
    by_cases h1 : q0.id = pid
    · exact absurd (by rw [awardStatus_id, h1]) hqpid
    · by_cases h2 : q0.solicitacao_id = sid
      · simp [awardStatus, h1, h2]
      · exact absurd (by rw [awardStatus_solicitacao] at hqsid; exact hqsid) h2
  · show ((st.propostas.map (awardStatus sid pid)).filter
        fun q => q.solicitacao_id == sid &&
          (q.status == "vencedora" || q.status == "nao_selecionada")).length = _
    rw [List.filter_map, List.length_map]
    have hpred2 : ((fun q : Proposta => q.solicitacao_id == sid &&
        (q.status == "vencedora" || q.status == "nao_selecionada")) ∘
          awardStatus sid pid) =
        fun q0 : Proposta => q0.solicitacao_id == sid := by
      funext q0
      simp only [Function.comp_apply]
      rw [Bool.eq_iff_iff]
      by_cases h1 : q0.id = pid <;> by_cases h2 : q0.solicitacao_id = sid <;>
        simp [awardStatus, h1, h2]
    rw [hpred2]

/-- Claim C3 witness: the statement on the one-proposal store, awarding the
received proposal 1 of request 1. -/
theorem c3_witness :
    ((stUmaProposta.propostas.map (·.id)).Nodup ∧
      (⟨1, 1, 1, 7, "recebida"⟩ : Proposta) ∈ stUmaProposta.propostas ∧
      (⟨1, 1, 1, 7, "recebida"⟩ : Proposta).id = 1 ∧
      (⟨1, 1, 1, 7, "recebida"⟩ : Proposta).solicitacao_id = 1 ∧
      (⟨1, 1, 1, 7, "recebida"⟩ : Proposta).status = "recebida" ∧
      selecionar_vencedora stUmaProposta 1 1 "menor_preco" "ok" =
        ((selecionar_vencedora stUmaProposta 1 1 "menor_preco" "ok").1, true)) ∧
    (((selecionar_vencedora stUmaProposta 1 1 "menor_preco"
          "ok").1.propostas.filter fun q =>
        q.solicitacao_id == 1 && q.status == "vencedora").length = 1 ∧
      (∀ q ∈ (selecionar_vencedora stUmaProposta 1 1 "menor_preco"
          "ok").1.propostas, q.solicitacao_id = 1 → q.id ≠ 1 →
        q.status = "nao_selecionada") ∧
      (((selecionar_vencedora stUmaProposta 1 1 "menor_preco"
          "ok").1.propostas.filter fun q => q.solicitacao_id == 1 &&
          (q.status == "vencedora" || q.status == "nao_selecionada")).length =
        (stUmaProposta.propostas.filter
          fun q => q.solicitacao_id == 1).length) ∧
      (∀ s ∈ (selecionar_vencedora stUmaProposta 1 1 "menor_preco"
          "ok").1.solicitacoes, s.id = 1 → s.status = "concluida")) := by
  have h2 : (selecionar_vencedora stUmaProposta 1 1 "menor_preco" "ok").2 =
      true := by decide
  have heta : selecionar_vencedora stUmaProposta 1 1 "menor_preco" "ok" =
      ((selecionar_vencedora stUmaProposta 1 1 "menor_preco" "ok").1, true) := by
    rw [← h2]
  exact ⟨⟨by decide, by decide, by decide, by decide, by decide, heta⟩,
    c3_selecionar_post stUmaProposta _ 1 1 "menor_preco" "ok"
      ⟨1, 1, 1, 7, "recebida"⟩ (by decide) (by decide) (by decide) (by decide)
      (by decide) heta⟩
